import Mathlib

/-!
Verification development for the drf-projects repository.

The repository declares two Django data models:

* `01_TaskManager/task_manager/tasks/models.py` — a single `Task` model with a
  `state` CharField constrained by `STATE_CHOICES`.
* `02_Intermediate_Apps/01_IssueTracker/tracker/issues/models.py` — models
  `UserProfile`, `Project`, `Issue`, `Comment` related to Django's `User` by
  foreign keys with declared `on_delete` policies (CASCADE / SET_NULL), plus
  `serializers.py` with `UserProfileSerializer` and `UserSerializer`.

We embed the declared schemas as Lean structures, and the CRUD operations the
framework derives from them (choice validation, one-to-one uniqueness,
cascade / set-null deletion, `auto_now_add` timestamps) as explicit functions
over a database state.  Reachable database states are those produced by a
sequence of these operations starting from the empty database.
-/

namespace TaskApp

/-- `STATE_CHOICES` from `tasks/models.py`: pairs of (stored value, label). -/
def STATE_CHOICES : List (String × String) :=
  [("planning", "Planning"), ("in_progress", "In Progress"),
   ("in_qa", "In QA"), ("done", "Done")]

/-- The values a `state` CharField with these choices may store. -/
def stateValues : List String := STATE_CHOICES.map Prod.fst

/-- The `Task` model: `title` (CharField max_length=25), `state` (CharField
with `STATE_CHOICES`, default "planning"), `priority` (IntegerField).
The `points` field declaration is left incomplete in the source file and is
therefore not part of the embedded schema. -/
structure Task where
  id : Nat
  title : String
  state : String
  priority : Int
  deriving DecidableEq, Repr

/-- Creating a Task: the framework validates the declared field constraints
(`state` against the choices, `title` against max_length) and rejects the
record otherwise. -/
def createTask (t : Task) (db : List Task) : Option (List Task) :=
  if t.state ∈ stateValues ∧ t.title.length ≤ 25 then some (t :: db) else none

/-- Updating a Task's `state` field: validated against the choices only;
no transition rule relates the old state to the new one. -/
def updateTaskState (tid : Nat) (s : String) (db : List Task) : Option (List Task) :=
  if s ∈ stateValues then
    some (db.map (fun t => if t.id == tid then { t with state := s } else t))
  else none

/-- Updating a Task's `priority` field (an unconstrained IntegerField). -/
def updateTaskPriority (tid : Nat) (p : Int) (db : List Task) : List Task :=
  db.map (fun t => if t.id == tid then { t with priority := p } else t)

/-- Deleting a Task by primary key. -/
def deleteTask (tid : Nat) (db : List Task) : List Task :=
  db.filter (fun t => t.id != tid)

/-- Database states reachable by CRUD on the Task table, starting empty. -/
inductive TaskReachable : List Task → Prop where
  | empty : TaskReachable []
  | create {db db' : List Task} {t : Task} :
      TaskReachable db → createTask t db = some db' → TaskReachable db'
  | setState {db db' : List Task} {tid : Nat} {s : String} :
      TaskReachable db → updateTaskState tid s db = some db' → TaskReachable db'
  | setPriority {db : List Task} {tid : Nat} {p : Int} :
      TaskReachable db → TaskReachable (updateTaskPriority tid p db)
  | del {db : List Task} {tid : Nat} :
      TaskReachable db → TaskReachable (deleteTask tid db)

end TaskApp

namespace Tracker

/-- Django's `auth.User`, as referenced by the tracker models and exposed by
`UserSerializer` (`id`, `username`, `email`). -/
structure User where
  id : Nat
  username : String
  email : String
  deriving DecidableEq, Repr

/-- `UserProfile` from `issues/models.py`: OneToOneField to User
(on_delete=CASCADE), `avatar` (URLField), `bio` (TextField). -/
structure UserProfile where
  id : Nat
  user : Nat
  avatar : String
  bio : String
  deriving DecidableEq, Repr

/-- `Project` from `issues/models.py`: `owner` ForeignKey to User
(on_delete=CASCADE), `name` (CharField max_length=100), `description`. -/
structure Project where
  id : Nat
  owner : Nat
  name : String
  description : String
  deriving DecidableEq, Repr

/-- The `choices` list on `Issue.state`: [("open", "Open"), ("closed", "Closed")]. -/
def issueStateChoices : List (String × String) := [("open", "Open"), ("closed", "Closed")]

/-- The values `Issue.state` may store. -/
def issueStateValues : List String := issueStateChoices.map Prod.fst

/-- `Issue` from `issues/models.py`: `project` FK (CASCADE), `title`
(max_length=100), `description`, `created_by` FK to User (CASCADE),
`assignee` nullable FK to User (SET_NULL), `state` (choices open/closed),
`priority` (IntegerField), `created_at` and `updated_at` (both declared
`auto_now_add=True`). -/
structure Issue where
  id : Nat
  project : Nat
  title : String
  description : String
  created_by : Nat
  assignee : Option Nat
  state : String
  priority : Int
  created_at : Nat
  updated_at : Nat
  deriving DecidableEq, Repr

/-- `Comment` from `issues/models.py`: `issue` FK (CASCADE), `auther` FK to
User (CASCADE, default on_delete), `body`, `created_at` (auto_now_add). -/
structure Comment where
  id : Nat
  issue : Nat
  auther : Nat
  body : String
  created_at : Nat
  deriving DecidableEq, Repr

/-- A database state for the tracker app: one table per model. -/
structure DB where
  users : List User
  profiles : List UserProfile
  projects : List Project
  issues : List Issue
  comments : List Comment
  deriving DecidableEq, Repr

/-- The empty database. -/
def DB.empty : DB := ⟨[], [], [], [], []⟩

/-- Inserting a User row. -/
def createUser (u : User) (db : DB) : DB := { db with users := u :: db.users }

/-- Updating a User's mutable fields. -/
def updateUser (uid : Nat) (un em : String) (db : DB) : DB :=
  { db with users := db.users.map (fun u =>
      if u.id == uid then { u with username := un, email := em } else u) }

/-- Creating a UserProfile: the OneToOneField puts a uniqueness constraint on
the `user` column, so a second profile for the same user is rejected. -/
def createProfile (p : UserProfile) (db : DB) : Option DB :=
  if db.profiles.any (fun q => q.user == p.user) then none
  else some { db with profiles := p :: db.profiles }

/-- Updating a UserProfile's `avatar` and `bio` fields. -/
def updateProfile (pid : Nat) (av b : String) (db : DB) : DB :=
  { db with profiles := db.profiles.map (fun p =>
      if p.id == pid then { p with avatar := av, bio := b } else p) }

/-- Deleting a UserProfile by primary key. -/
def deleteProfile (pid : Nat) (db : DB) : DB :=
  { db with profiles := db.profiles.filter (fun p => p.id != pid) }

/-- Inserting a Project row. -/
def createProject (p : Project) (db : DB) : DB := { db with projects := p :: db.projects }

/-- Updating a Project's `name` and `description`. -/
def updateProject (pid : Nat) (nm ds : String) (db : DB) : DB :=
  { db with projects := db.projects.map (fun p =>
      if p.id == pid then { p with name := nm, description := ds } else p) }

/-- The client-supplied fields of a new Issue (everything except the
`auto_now_add` timestamps, which the framework fills in). -/
structure IssueData where
  id : Nat
  project : Nat
  title : String
  description : String
  created_by : Nat
  assignee : Option Nat
  state : String
  priority : Int
  deriving DecidableEq, Repr

/-- The stored row for a new Issue: `auto_now_add` sets both `created_at`
and `updated_at` to the creation time. -/
def IssueData.build (d : IssueData) (now : Nat) : Issue :=
  ⟨d.id, d.project, d.title, d.description, d.created_by, d.assignee,
   d.state, d.priority, now, now⟩

/-- Creating an Issue: `state` is validated against the declared choices and
`title` against max_length=100; both timestamps are set to the current time. -/
def createIssue (d : IssueData) (now : Nat) (db : DB) : Option DB :=
  if d.state ∈ issueStateValues ∧ d.title.length ≤ 100 then
    some { db with issues := d.build now :: db.issues }
  else none

/-- Updating an Issue's mutable fields.  `state` is validated against the
choices.  Because both timestamp fields are declared `auto_now_add` (not
`auto_now`), neither `created_at` nor `updated_at` is touched on update. -/
def updateIssue (iid : Nat) (t ds st : String) (pr : Int) (asg : Option Nat)
    (db : DB) : Option DB :=
  if st ∈ issueStateValues ∧ t.length ≤ 100 then
    some { db with issues := db.issues.map (fun i =>
      if i.id == iid then
        { i with title := t, description := ds, state := st,
                 priority := pr, assignee := asg }
      else i) }
  else none

/-- Inserting a Comment row (`created_at` set by auto_now_add). -/
def createComment (c : Comment) (db : DB) : DB := { db with comments := c :: db.comments }

/-- Deleting a Comment by primary key. -/
def deleteComment (cid : Nat) (db : DB) : DB :=
  { db with comments := db.comments.filter (fun c => c.id != cid) }

/-- Deleting an Issue: `Comment.issue` is declared on_delete=CASCADE, so all
comments on the issue are deleted with it. -/
def deleteIssue (iid : Nat) (db : DB) : DB :=
  { db with
    issues := db.issues.filter (fun i => i.id != iid)
    comments := db.comments.filter (fun c => c.issue != iid) }

/-- Deleting a Project: `Issue.project` is CASCADE, so the project's issues
are deleted, and with them (via `Comment.issue` CASCADE) their comments. -/
def deleteProject (pid : Nat) (db : DB) : DB :=
  let deadIssues := (db.issues.filter (fun i => i.project == pid)).map Issue.id
  { db with
    projects := db.projects.filter (fun p => p.id != pid)
    issues := db.issues.filter (fun i => i.project != pid)
    comments := db.comments.filter (fun c => !(deadIssues.contains c.issue)) }

/-- Deleting a User, with the deletion policies declared on each FK to User:
`UserProfile.user` CASCADE, `Project.owner` CASCADE (which cascades further to
the project's issues and their comments), `Issue.created_by` CASCADE,
`Comment.auther` CASCADE, and `Issue.assignee` SET_NULL on the issues that
survive. -/
def deleteUser (uid : Nat) (db : DB) : DB :=
  let deadProjects := (db.projects.filter (fun p => p.owner == uid)).map Project.id
  let deadIssues := (db.issues.filter
      (fun i => i.created_by == uid || deadProjects.contains i.project)).map Issue.id
  { users := db.users.filter (fun u => u.id != uid)
    profiles := db.profiles.filter (fun p => p.user != uid)
    projects := db.projects.filter (fun p => p.owner != uid)
    issues := (db.issues.filter
        (fun i => !(i.created_by == uid || deadProjects.contains i.project))).map
      (fun i => if i.assignee == some uid then { i with assignee := none } else i)
    comments := db.comments.filter
      (fun c => c.auther != uid && !(deadIssues.contains c.issue)) }

/-- Database states reachable by the tracker's CRUD operations, starting
from the empty database. -/
inductive Reachable : DB → Prop where
  | empty : Reachable DB.empty
  | user {db : DB} {u : User} : Reachable db → Reachable (createUser u db)
  | userUpdate {db : DB} {uid : Nat} {un em : String} :
      Reachable db → Reachable (updateUser uid un em db)
  | profile {db db' : DB} {p : UserProfile} :
      Reachable db → createProfile p db = some db' → Reachable db'
  | profileUpdate {db : DB} {pid : Nat} {av b : String} :
      Reachable db → Reachable (updateProfile pid av b db)
  | profileDelete {db : DB} {pid : Nat} :
      Reachable db → Reachable (deleteProfile pid db)
  | project {db : DB} {p : Project} : Reachable db → Reachable (createProject p db)
  | projectUpdate {db : DB} {pid : Nat} {nm ds : String} :
      Reachable db → Reachable (updateProject pid nm ds db)
  | issue {db db' : DB} {d : IssueData} {now : Nat} :
      Reachable db → createIssue d now db = some db' → Reachable db'
  | issueUpdate {db db' : DB} {iid : Nat} {t ds st : String} {pr : Int}
      {asg : Option Nat} :
      Reachable db → updateIssue iid t ds st pr asg db = some db' → Reachable db'
  | comment {db : DB} {c : Comment} : Reachable db → Reachable (createComment c db)
  | commentDelete {db : DB} {cid : Nat} :
      Reachable db → Reachable (deleteComment cid db)
  | issueDelete {db : DB} {iid : Nat} :
      Reachable db → Reachable (deleteIssue iid db)
  | projectDelete {db : DB} {pid : Nat} :
      Reachable db → Reachable (deleteProject pid db)
  | userDelete {db : DB} {uid : Nat} :
      Reachable db → Reachable (deleteUser uid db)

/-- A JSON value, the codomain of the serializers. -/
inductive Json where
  | null : Json
  | str : String → Json
  | num : Nat → Json
  | obj : List (String × Json) → Json

/-- The field names of a JSON object (empty for non-objects). -/
def Json.keys : Json → List String
  | Json.obj fields => fields.map Prod.fst
  | _ => []

/-- Looking a field up in a JSON object. -/
def Json.lookupField (j : Json) (k : String) : Option Json :=
  match j with
  | Json.obj fields => fields.lookup k
  | _ => none

/-- `UserProfileSerializer` from `serializers.py`:
`fields = ["avatar", "bio"]`. -/
def UserProfileSerializer (p : UserProfile) : Json :=
  Json.obj [("avatar", Json.str p.avatar), ("bio", Json.str p.bio)]

/-- `UserSerializer` from `serializers.py`:
`fields = ["id", "username", "email", "profile"]`, where `profile` is the
nested read-only `UserProfileSerializer` rendering of the user's profile. -/
def UserSerializer (u : User) (prof : UserProfile) : Json :=
  Json.obj [("id", Json.num u.id), ("username", Json.str u.username),
            ("email", Json.str u.email), ("profile", UserProfileSerializer prof)]

/-- The conjunction of per-issue schema facts that every reachable state
satisfies: the stored `state` is an allowed choice, and (both timestamp
fields being `auto_now_add`) `updated_at` still equals `created_at`. -/
def IssueOk (i : Issue) : Prop :=
  i.state ∈ issueStateValues ∧ i.updated_at = i.created_at

/-- The inductive invariant of reachable tracker databases. -/
def DBInv (db : DB) : Prop :=
  (∀ i ∈ db.issues, IssueOk i) ∧
  db.profiles.Pairwise (fun p q => p.user ≠ q.user)

/-! Concrete data used to instantiate the theorems below. -/

/-- A sample user. -/
def alice : User := ⟨1, "alice", "alice@example.com"⟩

/-- A second sample user. -/
def bob : User := ⟨2, "bob", "bob@example.com"⟩

/-- A profile for `alice`. -/
def aliceProfile : UserProfile := ⟨1, 1, "http://a/x.png", "hi"⟩

/-- A project owned by `bob`. -/
def projA : Project := ⟨10, 2, "proj", "demo"⟩

/-- An issue in `projA`, created by `bob`, assigned to `alice`. -/
def issueData1 : IssueData := ⟨100, 10, "bug", "it breaks", 2, some 1, "open", 2⟩

/-- An issue in `projA` created by `alice` and also assigned to `alice`. -/
def cexIssueData : IssueData := ⟨101, 10, "bug2", "", 1, some 1, "open", 2⟩

/-- A comment by `bob` on issue 100. -/
def comment1 : Comment := ⟨1000, 100, 2, "lgtm", 7⟩

/-- Users `alice`, `bob` and project `projA`. -/
def wDB0 : DB := createProject projA (createUser bob (createUser alice DB.empty))

/-- `wDB0` plus `alice`'s profile. -/
def wDB1 : DB := { wDB0 with profiles := [aliceProfile] }

/-- `wDB1` plus issue 100 created at time 5. -/
def wDB2 : DB := { wDB1 with issues := [issueData1.build 5] }

/-- `wDB2` plus comment 1000. -/
def wDB3 : DB := createComment comment1 wDB2

/-- A database holding the issue whose creator is also its assignee. -/
def cDB : DB := { wDB0 with issues := [cexIssueData.build 5] }

/-- Issue data whose `state` is not one of the declared choices. -/
def badIssueData : IssueData := ⟨102, 10, "x", "", 1, none, "reopened", 2⟩

/-- A second profile row for user 1, violating the one-to-one constraint. -/
def aliceProfile2 : UserProfile := ⟨3, 1, "", "dup"⟩

/-- The result of updating issue 100 in `wDB2` (closed, reprioritised,
unassigned): the timestamps are untouched. -/
def wDB2u : DB := { wDB2 with issues := [⟨100, 10, "bug", "x", 2, none, "closed", 1, 5, 5⟩] }

end Tracker

namespace TaskApp

/-- A sample task in state "planning". -/
def wTask : Task := ⟨1, "write spec", "planning", 0⟩

/-- A task whose `state` is not one of the declared choices. -/
def wTaskBad : Task := ⟨2, "bad", "started", 0⟩

end TaskApp

/-! ## Theorems -/

namespace TaskApp

/-- Every state in a reachable Task table is one of the declared choices. -/
theorem taskStateInv {db : List Task} (h : TaskReachable db) :
    ∀ t ∈ db, t.state ∈ stateValues := by
  induction h with
  | empty => intro t ht; cases ht
  | create h1 hc ih =>
    intro t ht
    unfold createTask at hc
    split at hc
    · rename_i hcond
      injection hc with hc
      subst hc
      rcases List.mem_cons.mp ht with rfl | ht'
      · exact hcond.1
      · exact ih t ht'
    · cases hc
  | setState h1 hu ih =>
    intro t ht
    unfold updateTaskState at hu
    split at hu
    · rename_i hs
      injection hu with hu
      subst hu
      rcases List.mem_map.mp ht with ⟨a, ha, rfl⟩
      split
      · exact hs
      · exact ih a ha
    · cases hu
  | setPriority h1 ih =>
    intro t ht
    unfold updateTaskPriority at ht
    rcases List.mem_map.mp ht with ⟨a, ha, rfl⟩
    split
    · exact ih a ha
    · exact ih a ha
  | del h1 ih =>
    intro t ht
    exact ih t (List.mem_filter.mp ht).1

/-- Claim C5: in every reachable Task table, each record's `state` is one of
planning / in_progress / in_qa / done, and any create or update supplying a
value outside the choices is rejected. -/
theorem task_state_always_allowed :
    (∀ db : List Task, TaskReachable db → ∀ t ∈ db, t.state ∈ stateValues) ∧
    (∀ (t : Task) (db : List Task), t.state ∉ stateValues → createTask t db = none) ∧
    (∀ (tid : Nat) (s : String) (db : List Task), s ∉ stateValues →
      updateTaskState tid s db = none) := by
  refine ⟨fun db h => taskStateInv h, ?_, ?_⟩
  · intro t db hs
    unfold createTask
    exact if_neg (fun hand => hs hand.1)
  · intro tid s db hs
    unfold updateTaskState
    exact if_neg hs

/-- Witness for C5 at a concrete reachable table and concrete rejections. -/
theorem task_state_always_allowed_witness :
    wTask.state ∈ stateValues ∧
    createTask wTaskBad [] = none ∧
    updateTaskState 1 "started" [wTask] = none := by
  refine ⟨?_, ?_, ?_⟩
  · exact task_state_always_allowed.1 [wTask]
      (@TaskReachable.create [] [wTask] wTask TaskReachable.empty (by decide)) wTask (by decide)
  · exact task_state_always_allowed.2.1 wTaskBad [] (by decide)
  · exact task_state_always_allowed.2.2 1 "started" [wTask] (by decide)

/-- Claim C8: updating a Task's state to any allowed value always succeeds,
whatever allowed state the task currently has: nothing restricts which state
may follow which. -/
theorem task_state_transition_unrestricted :
    ∀ (db : List Task) (t : Task) (s1 s2 : String),
      t ∈ db → t.state = s1 → s1 ∈ stateValues → s2 ∈ stateValues →
      updateTaskState t.id s2 db =
        some (db.map (fun x => if x.id == t.id then { x with state := s2 } else x)) := by
  intro db t s1 s2 _ _ _ hs2
  unfold updateTaskState
  exact if_pos hs2

/-- Witness for C8: moving the sample task from "planning" straight to
"done" succeeds. -/
theorem task_state_transition_unrestricted_witness :
    updateTaskState wTask.id "done" [wTask] =
      some ([wTask].map (fun x => if x.id == wTask.id then { x with state := "done" } else x)) :=
  task_state_transition_unrestricted [wTask] wTask "planning" "done"
    (by decide) (by decide) (by decide) (by decide)

end TaskApp

namespace Tracker

/-- The invariant `DBInv` holds in every reachable tracker database. -/
theorem dbInv_of_reachable {db : DB} (h : Reachable db) : DBInv db := by
  induction h with
  | empty => exact ⟨fun i hi => absurd hi (List.not_mem_nil i), List.Pairwise.nil⟩
  | user h1 ih => exact ih
  | userUpdate h1 ih => exact ih
  | profile h1 hc ih =>
    unfold createProfile at hc
    split at hc
    · cases hc
    · rename_i hany
      injection hc with hc
      subst hc
      refine ⟨ih.1, List.pairwise_cons.mpr ⟨?_, ih.2⟩⟩
      intro q hq heq
      exact hany (List.any_eq_true.mpr ⟨q, hq, by simp [heq]⟩)
  | profileUpdate h1 ih =>
    refine ⟨ih.1, ?_⟩
    unfold updateProfile
    simp only [List.pairwise_map]
    refine ih.2.imp ?_
    intro a b hab
    split <;> split <;> exact hab
  | profileDelete h1 ih =>
    exact ⟨ih.1, ih.2.sublist (List.filter_sublist _)⟩
  | project h1 ih => exact ih
  | projectUpdate h1 ih => exact ih
  | issue h1 hc ih =>
    unfold createIssue at hc
    split at hc
    · rename_i hcond
      injection hc with hc
      subst hc
      refine ⟨?_, ih.2⟩
      intro i hi
      rcases List.mem_cons.mp hi with rfl | hi'
      · exact ⟨hcond.1, rfl⟩
      · exact ih.1 i hi'
    · cases hc
  | issueUpdate h1 hc ih =>
    unfold updateIssue at hc
    split at hc
    · rename_i hcond
      injection hc with hc
      subst hc
      refine ⟨?_, ih.2⟩
      intro i hi
      rcases List.mem_map.mp hi with ⟨a, ha, rfl⟩
      split
      · exact ⟨hcond.1, (ih.1 a ha).2⟩
      · exact ih.1 a ha
    · cases hc
  | comment h1 ih => exact ih
  | commentDelete h1 ih => exact ih
  | issueDelete h1 ih =>
    refine ⟨?_, ih.2⟩
    intro i hi
    exact ih.1 i (List.mem_filter.mp hi).1
  | projectDelete h1 ih =>
    refine ⟨?_, ih.2⟩
    intro i hi
    simp only [deleteProject] at hi
    exact ih.1 i (List.mem_filter.mp hi).1
  | userDelete h1 ih =>
    constructor
    · intro i hi
      simp only [deleteUser] at hi
      rcases List.mem_map.mp hi with ⟨a, ha, rfl⟩
      have hok := ih.1 a (List.mem_filter.mp ha).1
      split <;> exact hok
    · simp only [deleteUser]
      exact ih.2.sublist (List.filter_sublist _)

/-- The sample database `wDB3` is reachable: two user creations, a project,
a profile, an issue and a comment. -/
theorem wDB3_reachable : Reachable wDB3 :=
  Reachable.comment
    (@Reachable.issue wDB1 wDB2 issueData1 5
      (@Reachable.profile wDB0 wDB1 aliceProfile
        (Reachable.project (Reachable.user (Reachable.user Reachable.empty)))
        (by decide))
      (by decide))

end Tracker

namespace Tracker

/-- A list of profiles with pairwise-distinct `user` fields has at most one
entry for any given user. -/
theorem profile_unique_filter {l : List UserProfile}
    (h : l.Pairwise (fun p q => p.user ≠ q.user)) (uid : Nat) :
    (l.filter (fun p => p.user == uid)).length ≤ 1 := by
  induction l with
  | nil => simp
  | cons a tl ih =>
    rcases List.pairwise_cons.mp h with ⟨ha, htl⟩
    by_cases hu : a.user = uid
    · have hnil : tl.filter (fun p => p.user == uid) = [] := by
        rw [List.filter_eq_nil_iff]
        intro b hb
        simp only [beq_iff_eq]
        exact fun hbu => (ha b hb) (hu.trans hbu.symm)
      simp [List.filter_cons, hu, hnil]
    · simp only [List.filter_cons, beq_iff_eq, hu, if_false]
      exact ih htl

/-- Claim C6: in every reachable tracker database, each Issue's `state` is
either "open" or "closed", and any create or update supplying a value outside
the choices is rejected. -/
theorem issue_state_always_allowed :
    (∀ db : DB, Reachable db → ∀ i ∈ db.issues, i.state ∈ issueStateValues) ∧
    (∀ (d : IssueData) (now : Nat) (db : DB), d.state ∉ issueStateValues →
      createIssue d now db = none) ∧
    (∀ (iid : Nat) (t ds st : String) (pr : Int) (asg : Option Nat) (db : DB),
      st ∉ issueStateValues → updateIssue iid t ds st pr asg db = none) := by
  refine ⟨fun db h i hi => ((dbInv_of_reachable h).1 i hi).1, ?_, ?_⟩
  · intro d now db hs
    unfold createIssue
    exact if_neg (fun hand => hs hand.1)
  · intro iid t ds st pr asg db hs
    unfold updateIssue
    exact if_neg (fun hand => hs hand.1)

/-- Witness for C6: the sample reachable database, a rejected create, and a
rejected update, all concrete. -/
theorem issue_state_always_allowed_witness :
    (issueData1.build 5).state ∈ issueStateValues ∧
    createIssue badIssueData 0 DB.empty = none ∧
    updateIssue 100 "bug" "" "reopened" 2 none wDB2 = none := by
  refine ⟨?_, ?_, ?_⟩
  · exact issue_state_always_allowed.1 wDB3 wDB3_reachable (issueData1.build 5) (by decide)
  · exact issue_state_always_allowed.2.1 badIssueData 0 DB.empty (by decide)
  · exact issue_state_always_allowed.2.2 100 "bug" "" "reopened" 2 none wDB2 (by decide)

/-- Claim C7: in every reachable tracker database, at most one UserProfile
row references any given user, and creating a second profile for an already
profiled user is rejected. -/
theorem profile_one_to_one :
    (∀ db : DB, Reachable db → ∀ uid : Nat,
      (db.profiles.filter (fun p => p.user == uid)).length ≤ 1) ∧
    (∀ (p : UserProfile) (db : DB),
      db.profiles.any (fun q => q.user == p.user) = true →
      createProfile p db = none) := by
  refine ⟨fun db h uid => profile_unique_filter (dbInv_of_reachable h).2 uid, ?_⟩
  intro p db hp
  unfold createProfile
  rw [if_pos hp]

/-- Witness for C7 at the sample reachable database and a concrete rejected
duplicate profile. -/
theorem profile_one_to_one_witness :
    (wDB3.profiles.filter (fun p => p.user == 1)).length ≤ 1 ∧
    createProfile aliceProfile2 wDB1 = none :=
  ⟨profile_one_to_one.1 wDB3 wDB3_reachable 1,
   profile_one_to_one.2 aliceProfile2 wDB1 (by decide)⟩

/-- Claim C9: both Issue timestamps are `auto_now_add`: creation sets
`created_at` and `updated_at` to the same creation time, updates never touch
either timestamp, and hence in every reachable database `updated_at` still
equals `created_at`. -/
theorem issue_updated_at_frozen :
    (∀ (d : IssueData) (now : Nat) (db db' : DB), createIssue d now db = some db' →
      db'.issues = d.build now :: db.issues ∧
      (d.build now).created_at = now ∧ (d.build now).updated_at = now) ∧
    (∀ (iid : Nat) (t ds st : String) (pr : Int) (asg : Option Nat) (db db' : DB),
      updateIssue iid t ds st pr asg db = some db' →
      db'.issues.map (fun i => (i.id, i.created_at, i.updated_at)) =
        db.issues.map (fun i => (i.id, i.created_at, i.updated_at))) ∧
    (∀ db : DB, Reachable db → ∀ i ∈ db.issues, i.updated_at = i.created_at) := by
  refine ⟨?_, ?_, fun db h i hi => ((dbInv_of_reachable h).1 i hi).2⟩
  · intro d now db db' hc
    unfold createIssue at hc
    split at hc
    · injection hc with hc
      subst hc
      exact ⟨rfl, rfl, rfl⟩
    · cases hc
  · intro iid t ds st pr asg db db' hc
    unfold updateIssue at hc
    split at hc
    · injection hc with hc
      subst hc
      show (db.issues.map _).map _ = _
      rw [List.map_map]
      refine List.map_congr_left ?_
      intro a ha
      simp only [Function.comp]
      split <;> rfl
    · cases hc

/-- Witness for C9: creation at time 5 stamps both fields with 5, the
concrete update leaves ids and timestamps unchanged, and the stored issue in
the reachable sample still has `updated_at = created_at`. -/
theorem issue_updated_at_frozen_witness :
    (wDB2.issues = issueData1.build 5 :: wDB1.issues ∧
      (issueData1.build 5).created_at = 5 ∧ (issueData1.build 5).updated_at = 5) ∧
    wDB2u.issues.map (fun i => (i.id, i.created_at, i.updated_at)) =
      wDB2.issues.map (fun i => (i.id, i.created_at, i.updated_at)) ∧
    (issueData1.build 5).updated_at = (issueData1.build 5).created_at := by
  refine ⟨?_, ?_, ?_⟩
  · exact issue_updated_at_frozen.1 issueData1 5 wDB1 wDB2 (by decide)
  · exact issue_updated_at_frozen.2.1 100 "bug" "x" "closed" 1 none wDB2 wDB2u (by decide)
  · exact issue_updated_at_frozen.2.2 wDB3 wDB3_reachable (issueData1.build 5) (by decide)

end Tracker

namespace Tracker

/-- Claim C2: for every User, `UserSerializer` renders exactly the top-level
fields id / username / email / profile, and the nested `profile` object is
the `UserProfileSerializer` rendering with exactly the fields avatar / bio. -/
theorem user_serializer_profile_fields :
    ∀ (u : User) (p : UserProfile),
      (UserSerializer u p).keys = ["id", "username", "email", "profile"] ∧
      (UserSerializer u p).lookupField "profile" = some (UserProfileSerializer p) ∧
      (UserProfileSerializer p).keys = ["avatar", "bio"] := by
  intro u p
  refine ⟨rfl, ?_, rfl⟩
  simp [UserSerializer, Json.lookupField, List.lookup]

/-- Claim C3: deleting a Project removes exactly the Issues referencing it;
afterwards no Issue referencing the deleted Project exists. -/
theorem project_delete_cascades_to_issues :
    ∀ (db : DB) (pid : Nat),
      (deleteProject pid db).issues = db.issues.filter (fun i => i.project != pid) ∧
      (∀ i ∈ db.issues, i.project = pid → i ∉ (deleteProject pid db).issues) ∧
      (∀ i ∈ (deleteProject pid db).issues, i.project ≠ pid) := by
  intro db pid
  have hne : ∀ i ∈ (deleteProject pid db).issues, i.project ≠ pid := by
    intro i hmem
    simp only [deleteProject] at hmem
    have := (List.mem_filter.mp hmem).2
    simpa [bne_iff_ne] using this
  exact ⟨rfl, fun i _ hip hmem => hne i hmem hip, hne⟩

/-- Witness for C3: issue 100 lives in project 10 of the sample database and
is gone after project 10 is deleted. -/
theorem project_delete_cascades_to_issues_witness :
    issueData1.build 5 ∉ (deleteProject 10 wDB3).issues :=
  (project_delete_cascades_to_issues wDB3 10).2.1 (issueData1.build 5)
    (by decide) (by decide)

/-- Claim C4: deleting an Issue removes exactly the Comments referencing it;
afterwards no Comment referencing the deleted Issue exists. -/
theorem issue_delete_cascades_to_comments :
    ∀ (db : DB) (iid : Nat),
      (deleteIssue iid db).comments = db.comments.filter (fun c => c.issue != iid) ∧
      (∀ c ∈ db.comments, c.issue = iid → c ∉ (deleteIssue iid db).comments) ∧
      (∀ c ∈ (deleteIssue iid db).comments, c.issue ≠ iid) := by
  intro db iid
  have hne : ∀ c ∈ (deleteIssue iid db).comments, c.issue ≠ iid := by
    intro c hmem
    have := (List.mem_filter.mp hmem).2
    simpa [bne_iff_ne] using this
  exact ⟨rfl, fun c _ hip hmem => hne c hmem hip, hne⟩

/-- Witness for C4: comment 1000 references issue 100 in the sample database
and is gone after issue 100 is deleted. -/
theorem issue_delete_cascades_to_comments_witness :
    comment1 ∉ (deleteIssue 100 wDB3).comments :=
  (issue_delete_cascades_to_comments wDB3 100).2.1 comment1 (by decide) (by decide)

/-- Claim C10: deleting a User leaves no row referencing the user through a
CASCADE foreign key: no profile of the user, no project owned by the user, no
issue created by the user (whoever its assignee is), no comment authored by
the user, and no User row with the deleted id. -/
theorem user_delete_cascades :
    ∀ (db : DB) (uid : Nat),
      (∀ p ∈ (deleteUser uid db).profiles, p.user ≠ uid) ∧
      (∀ pr ∈ (deleteUser uid db).projects, pr.owner ≠ uid) ∧
      (∀ i ∈ (deleteUser uid db).issues, i.created_by ≠ uid) ∧
      (∀ c ∈ (deleteUser uid db).comments, c.auther ≠ uid) ∧
      (∀ u ∈ (deleteUser uid db).users, u.id ≠ uid) := by
  intro db uid
  refine ⟨?_, ?_, ?_, ?_, ?_⟩
  · intro p hp
    have := (List.mem_filter.mp hp).2
    simpa [bne_iff_ne] using this
  · intro pr hpr
    have := (List.mem_filter.mp hpr).2
    simpa [bne_iff_ne] using this
  · intro i hi
    simp only [deleteUser] at hi
    rcases List.mem_map.mp hi with ⟨a, ha, rfl⟩
    have := (List.mem_filter.mp ha).2
    simp only [Bool.not_eq_true', Bool.or_eq_false_iff] at this
    have hcb : a.created_by ≠ uid := by
      simpa [beq_eq_false_iff_ne] using this.1
    split <;> exact hcb
  · intro c hc
    simp only [deleteUser] at hc
    have := (List.mem_filter.mp hc).2
    simp only [Bool.and_eq_true] at this
    simpa [bne_iff_ne] using this.1
  · intro u hu
    have := (List.mem_filter.mp hu).2
    simpa [bne_iff_ne] using this

/-- Witness for C10: after deleting user 2 (bob) from the sample database,
the surviving profile of user 1 indeed does not belong to user 2. -/
theorem user_delete_cascades_witness :
    aliceProfile.user ≠ 2 :=
  (user_delete_cascades wDB3 2).1 aliceProfile (by decide)

end Tracker

namespace Tracker

/-- Claim C1 is false as stated: user 1 is the assignee of issue 101 in
`cDB`, but user 1 is also its creator, so the CASCADE policy on
`Issue.created_by` deletes the issue when user 1 is deleted — the issue does
not survive with `assignee` nulled. -/
theorem assignee_set_null_counterexample :
    ¬ (∀ (db : DB) (uid : Nat), ∀ i ∈ db.issues, i.assignee = some uid →
        ({ i with assignee := none } : Issue) ∈ (deleteUser uid db).issues) := by
  intro h
  have hmem := h cDB 1 (cexIssueData.build 5) (by decide) (by decide)
  exact absurd hmem (by decide)

/-- Claim C1 (amended): deleting a User turns it into a null `assignee` on
every issue assigned to it, leaving the issue's other fields unchanged,
provided the deleted user is not the issue's creator and does not own the
issue's project — in those cases the CASCADE policies on `Issue.created_by`
and `Project.owner` delete the issue itself instead. -/
theorem assignee_set_null_on_user_delete :
    ∀ (db : DB) (uid : Nat), ∀ i ∈ db.issues,
      i.assignee = some uid →
      i.created_by ≠ uid →
      (∀ p ∈ db.projects, p.id = i.project → p.owner ≠ uid) →
      ({ i with assignee := none } : Issue) ∈ (deleteUser uid db).issues := by
  intro db uid i hi hasg hcb hproj
  simp only [deleteUser, List.mem_map]
  refine ⟨i, List.mem_filter.mpr ⟨hi, ?_⟩, ?_⟩
  · simp only [Bool.not_eq_true', Bool.or_eq_false_iff, beq_eq_false_iff_ne]
    refine ⟨hcb, ?_⟩
    simp only [List.contains, List.elem_eq_mem, decide_eq_false_iff_not]
    intro hmem
    rcases List.mem_map.mp hmem with ⟨p, hpmem, hpid⟩
    rcases List.mem_filter.mp hpmem with ⟨hpdb, hpowner⟩
    exact hproj p hpdb hpid (beq_iff_eq.mp hpowner)
  · simp [hasg]

/-- Witness for the amended C1: deleting user 1 (alice), who is assignee but
not creator of issue 100 and owns no project, leaves issue 100 in place with
its `assignee` nulled and every other field intact. -/
theorem assignee_set_null_on_user_delete_witness :
    ({ issueData1.build 5 with assignee := none } : Issue) ∈
      (deleteUser 1 wDB3).issues :=
  assignee_set_null_on_user_delete wDB3 1 (issueData1.build 5)
    (by decide) (by decide) (by decide) (by decide)

end Tracker
